import Mathlib

/-!
Verification of the Apple News signed-request client (`lib/make-request.js`):
canonical-request construction and HMAC header assembly, response-body
classification, the status-code gate, payload dispatch, socket-error
classification, TLS relaxation, and the callback-delivery discipline of the
request/response event handlers.

Library primitives of the platform (HMAC-SHA256, base64 decoding,
`JSON.stringify`, `JSON.parse`) are abstracted as function parameters; the
byte-level encodings (`ascii`, `utf-8`) used by `Buffer` are modelled
concretely.
-/

namespace AppleNews

/-- JSON values as produced by a JSON parser. -/
inductive Json where
  | null
  | bool (b : Bool)
  | num (n : Int)
  | str (s : String)
  | arr (elems : List Json)
  | obj (fields : List (String × Json))

/-- JavaScript truthiness of a JSON value (`null`, `false`, `0` and the empty
string are falsy; arrays and objects are truthy). -/
def Json.truthy : Json → Bool
  | .null => false
  | .bool b => b
  | .num n => n != 0
  | .str s => s != ""
  | .arr _ => true
  | .obj _ => true

/-- Property access `v[k]`; `none` models JavaScript `undefined` (access on a
non-object yields `undefined`; access on `null` is always guarded by a
truthiness check in the code modelled here). -/
def jsGet : Json → String → Option Json
  | .obj fields, k => fields.lookup k
  | _, _ => none

/-- Truthiness of a possibly-undefined value. -/
def truthyO : Option Json → Bool
  | some v => v.truthy
  | none => false

/-- The test `x.data && x.data.alertBody` performed on a request payload. -/
def dataAlertBody (v : Json) : Bool :=
  match jsGet v "data" with
  | some d => d.truthy && truthyO (jsGet d "alertBody")
  | none => false

/-- The test `post && post.data && post.data.alertBody` from `sendRequest`. -/
def jsIsAlert (post : Json) : Bool :=
  post.truthy && dataAlertBody post

/-- Bytes written by `Buffer(s, 'ascii')`: the code unit with the high bit
stripped. -/
def asciiBytes (s : String) : List Nat :=
  s.data.map fun c => c.toNat % 128

/-- UTF-8 encoding of a single character. -/
def utf8CharBytes (c : Char) : List Nat :=
  let n := c.toNat
  if n < 128 then [n]
  else if n < 2048 then [192 + n / 64, 128 + n % 64]
  else if n < 65536 then [224 + n / 4096, 128 + (n / 64) % 64, 128 + n % 64]
  else [240 + n / 262144, 128 + (n / 4096) % 64, 128 + (n / 64) % 64, 128 + n % 64]

/-- Bytes written by `Buffer.from(s, 'utf-8')`. -/
def utf8Bytes (s : String) : List Nat :=
  (s.data.map utf8CharBytes).flatten

/-- `Buffer.byteLength(s)` (UTF-8 byte count). -/
def byteLength (s : String) : Nat :=
  (utf8Bytes s).length

/-- Client configuration (`config`).  Optional fields model properties that
may be absent (`undefined`). -/
structure Config where
  apiId : String
  apiSecret : String
  host : Option String
  port : Option Nat
  timeout : Option Nat

/-- The fixed default hostname. -/
def defaultHost : String := "news-api.apple.com"

/-- `config.host || defaultHost` (an empty string is falsy). -/
def hostOf (cfg : Config) : String :=
  match cfg.host with
  | some h => if h = "" then defaultHost else h
  | none => defaultHost

/-- `config.port || void 0` (a zero port is falsy and becomes undefined). -/
def jsPort (p : Option Nat) : Option Nat :=
  match p with
  | some n => if n = 0 then none else some n
  | none => none

/-- The `post` argument of `sendRequest`: either the raw structured payload
(the alert-notification path) or the encoder's output `{buffer, headers}`. -/
inductive Post where
  | json (v : Json)
  | encoded (buffer : List Nat) (headers : List (String × String))

/-- The `isAlert` test as evaluated inside `sendRequest` on its `post`
argument (an encoder result has no `data` property). -/
def Post.isAlert : Post → Bool
  | .json v => jsIsAlert v
  | .encoded _ _ => false

/-- The `headers` local of `sendRequest`: alert posts get a JSON
content-type and a content-length computed from the serialized payload,
encoder posts carry their own headers, and a missing post gets `{}`.
(A non-alert `Post.json` never reaches `sendRequest` on any call path of
`makeRequest`; its `headers` property is undefined, modelled as `[]`.) -/
def sendHeaders (stringify : Json → String) : Option Post → List (String × String)
  | none => []
  | some (Post.json v) =>
      if jsIsAlert v then
        [("content-type", "application/json"),
         ("content-length", toString (byteLength (stringify v)))]
      else []
  | some (Post.encoded _ hs) => hs

/-- The expression `headers['content-type'] ? headers['content-type'] : ''`. -/
def contentTypeStr (headers : List (String × String)) : String :=
  match headers.lookup "content-type" with
  | some ct => if ct = "" then "" else ct
  | none => ""

/-- Payload bytes appended to the canonical request and written as the body:
`isAlert ? Buffer.from(JSON.stringify(post), 'utf-8') : post.buffer`. -/
def payloadBytes (stringify : Json → String) : Post → List Nat
  | Post.json v => utf8Bytes (stringify v)
  | Post.encoded buf _ => buf

/-- `objectAssign(base, extra)`: keys of `extra` override keys of `base`. -/
def objectAssign (base extra : List (String × String)) : List (String × String) :=
  base.filter (fun kv => (extra.lookup kv.1).isNone) ++ extra

/-- The options object handed to `https.request`. -/
structure ReqOpts where
  method : String
  host : String
  port : Option Nat
  rejectUnauthorized : Bool
  path : String
  headers : List (String × String)

/-- Everything `sendRequest` computes before dispatching the request. -/
structure BuiltRequest where
  canonical : List Nat
  signature : String
  auth : String
  opts : ReqOpts
  timeoutMs : Nat
  body : Option (List Nat)

/-- The request-building half of `sendRequest`: canonical request, HMAC
authorization header, `https.request` options, timeout and written body.
`hmacSha256B64 key msg` abstracts
`crypto.createHmac('sha256', key).update(msg).digest('base64')`;
`base64Decode` abstracts `Buffer(s, 'base64')`; `stringify` abstracts
`JSON.stringify`; `env` is `process.env.NODE_ENV`; `date` is the
moment-formatted UTC timestamp. -/
def sendRequestBuild (hmacSha256B64 : List Nat → List Nat → String)
    (base64Decode : String → List Nat) (stringify : Json → String)
    (cfg : Config) (env : Option String)
    (method endpoint : String) (post : Option Post) (date : String) :
    BuiltRequest :=
  let headers := sendHeaders stringify post
  let host := hostOf cfg
  let metaStr := method ++ "https://" ++ host ++ endpoint ++ date ++ contentTypeStr headers
  let canonical :=
    match post with
    | some p => asciiBytes metaStr ++ payloadBytes stringify p
    | none => asciiBytes metaStr
  let key := base64Decode cfg.apiSecret
  let signature := hmacSha256B64 key canonical
  let auth := "HHMAC; key=\"" ++ cfg.apiId ++ "\"; signature=\"" ++ signature ++
    "\"; date=\"" ++ date ++ "\""
  { canonical := canonical
    signature := signature
    auth := auth
    opts :=
      { method := method
        host := host
        port := jsPort cfg.port
        rejectUnauthorized := !(env == some "test")
        path := endpoint
        headers := objectAssign
          [("Accept", "application/json"), ("Authorization", auth)] headers }
    timeoutMs := cfg.timeout.getD 0
    body := post.map (payloadBytes stringify) }

/-- An error object handed to the caller's callback: its `message` and the
optional `apiError` property attached on the structured-error path. -/
structure JsError where
  message : String
  apiError : Option Json

/-- `parsed.errors && Array.isArray(parsed.errors) && parsed.errors.length > 0`
collapsed to its first element (an array is always truthy). -/
def errorsHead (parsed : Json) : Option Json :=
  match jsGet parsed "errors" with
  | some (Json.arr (e :: _)) => some e
  | _ => none

/-- The error branches of the `end` handler, reached when `parsed.data` is
falsy: a structured API error when `parsed.errors[0].code` is truthy,
otherwise a plain error carrying the raw body text. -/
def classifyErrors (raw : String) (parsed : Json) : Except JsError Json :=
  match errorsHead parsed with
  | some e0 =>
      if truthyO (jsGet e0 "code") then Except.error ⟨raw, some e0⟩
      else Except.error ⟨raw, none⟩
  | none => Except.error ⟨raw, none⟩

/-- Classification of a parsed response body: `if (parsed.data)` delivers the
`data` value, otherwise the error branches run. -/
def classifyBody (raw : String) (parsed : Json) : Except JsError Json :=
  match jsGet parsed "data" with
  | some d => if d.truthy then Except.ok d else classifyErrors raw parsed
  | none => classifyErrors raw parsed

/-- The response `end` handler: an empty accumulated body yields
`cb(null, res, null)`; otherwise the body is parsed (`parseResult` stands for
the outcome of `JSON.parse(result)`) and classified. -/
def handleEnd (raw : String) (parseResult : Except String Json) :
    Except JsError Json :=
  if raw = "" then Except.ok Json.null
  else
    match parseResult with
    | Except.error e => Except.error ⟨e, none⟩
    | Except.ok parsed => classifyBody raw parsed

/-- The `done` wrapper of `makeRequest`: an error passes through, otherwise the
status-code gate `String(res.statusCode)[0] !== '2'` rejects non-2xx
responses. -/
def doneHandler (method endpoint : String) (statusCode : Nat)
    (r : Except JsError Json) : Except JsError Json :=
  match r with
  | Except.error e => Except.error e
  | Except.ok body =>
      if (toString statusCode).front = '2' then Except.ok body
      else Except.error
        ⟨method ++ " " ++ endpoint ++ " code " ++ toString statusCode, none⟩

/-- A socket-level error delivered to the request's `error` handler. -/
structure SocketError where
  code : String
  message : String

/-- What the request's `error` handler passes to the callback. -/
inductive ReqErrorOutcome where
  | timeoutError (message : String)
  | raw (err : SocketError)

/-- String interpolation of `config.timeout` (undefined prints as
`"undefined"`). -/
def jsShowTimeout : Option Nat → String
  | some t => toString t
  | none => "undefined"

/-- The request `error` handler: `ECONNRESET` is reported as an endpoint
timeout whose message interpolates the configured timeout; any other error
is passed to the callback verbatim. -/
def handleReqError (cfg : Config) (err : SocketError) : ReqErrorOutcome :=
  if err.code = "ECONNRESET" then
    ReqErrorOutcome.timeoutError
      ("Apple News API endpoint timeout after " ++ jsShowTimeout cfg.timeout ++ " ms")
  else ReqErrorOutcome.raw err

/-- Observable effects of one `makeRequest` invocation before any network
response arrives: the arguments passed to `encodeFormData`, the `post`
arguments of the `sendRequest` calls made, and an error delivered to the
caller without any send. -/
structure TxTrace where
  encoderCalls : List Json
  sends : List (Option Post)
  earlyError : Option JsError

/-- The dispatch logic of `makeRequest`: a POST with a truthy `formData`
either goes straight to `sendRequest` (alert notification) or through
`encodeFormData` first; an encoder error is handed to `done` (hence to the
caller) with no send; everything else is sent with no body.  `encode`
abstracts the external form-data encoder collaborator. -/
def makeRequestTrace (method endpoint : String) (formData : Option Json)
    (encode : Json → Except JsError Post) : TxTrace :=
  match formData with
  | some fd =>
      if method == "POST" && fd.truthy then
        if dataAlertBody fd then ⟨[], [some (Post.json fd)], none⟩
        else
          match encode fd with
          | Except.error e => ⟨[fd], [], some e⟩
          | Except.ok enc => ⟨[fd], [some enc], none⟩
      else ⟨[], [none], none⟩
  | none => ⟨[], [none], none⟩

/-- Events that can occur on an in-flight transaction. -/
inductive Event where
  | timeout
  | reqError (code : String)
  | respData (chunk : String)
  | respError (message : String)
  | respEnd

/-- A single invocation of the caller's callback: with an error, or with a
result. -/
inductive CbCall where
  | failure
  | success

/-- Mutable state of one transaction: the `done` flag and `result`
accumulator scoped inside the `response` handler, plus the list of callback
invocations made so far. -/
structure TxState where
  done : Bool
  result : String
  calls : List CbCall

/-- One event-handler step.  The `timeout` handler only aborts the request;
the request-level `error` handler invokes the callback with no guard (the
`done` flag is not in its scope); the response `error` and `end` handlers are
guarded by `done`. -/
def step (parse : String → Except String Json) (s : TxState) : Event → TxState
  | Event.timeout => s
  | Event.reqError _ => { s with calls := s.calls ++ [CbCall.failure] }
  | Event.respData ch => { s with result := s.result ++ ch }
  | Event.respError _ =>
      if s.done then s
      else { s with done := true, calls := s.calls ++ [CbCall.failure] }
  | Event.respEnd =>
      if s.done then s
      else
        { s with
          done := true
          calls := s.calls ++
            [match handleEnd s.result (parse s.result) with
             | Except.ok _ => CbCall.success
             | Except.error _ => CbCall.failure] }

/-- Run a transaction over a sequence of events from the initial state. -/
def runTx (parse : String → Except String Json) (events : List Event) : TxState :=
  events.foldl (step parse) ⟨false, "", []⟩

/-- `needle` occurs as a contiguous substring of `hay`. -/
def occursIn (needle hay : String) : Prop :=
  ∃ a b, hay.data = a ++ needle.data ++ b

/-- The `ascii` encoding distributes over string concatenation. -/
theorem asciiBytes_append (s t : String) :
    asciiBytes (s ++ t) = asciiBytes s ++ asciiBytes t := by
  simp [asciiBytes, String.data_append]

/-- The content-type fragment of the canonical request is the looked-up header
value, defaulting to the empty string when the header is absent. -/
theorem contentTypeStr_eq (hs : List (String × String)) :
    contentTypeStr hs = (hs.lookup "content-type").getD "" := by
  unfold contentTypeStr
  cases h : hs.lookup "content-type" with
  | none => rfl
  | some ct =>
      by_cases hct : ct = "" <;> simp [hct]

/-- A payload whose `data.alertBody` test succeeds is an object, hence truthy. -/
theorem dataAlertBody_truthy (fd : Json) (h : dataAlertBody fd = true) :
    fd.truthy = true := by
  cases fd <;> simp [dataAlertBody, jsGet, Json.truthy] at h ⊢

/-- Claim C1: the canonical request is the concatenation, in order, of the
method, the literal `https://` prefix with the host, the endpoint path, the
timestamp, the content-type string exactly when a (truthy) content-type
header is present (the empty fragment otherwise), followed by the raw payload
bytes when a payload exists; and the Authorization header is
`HHMAC; key="<apiId>"; signature="<s>"; date="<timestamp>"` where `<s>` is
the base64 HMAC-SHA256 of those canonical bytes under the base64-decoded API
secret and the date field reuses the identical timestamp string. -/
theorem C1_canonical_and_auth (hmac : List Nat → List Nat → String)
    (b64 : String → List Nat) (stringify : Json → String)
    (cfg : Config) (env : Option String) (method endpoint date : String)
    (post : Option Post) :
    (sendRequestBuild hmac b64 stringify cfg env method endpoint post date).canonical
      = asciiBytes method ++ asciiBytes ("https://" ++ hostOf cfg) ++ asciiBytes endpoint
        ++ asciiBytes date
        ++ asciiBytes (((sendHeaders stringify post).lookup "content-type").getD "")
        ++ (match post with
            | some p => payloadBytes stringify p
            | none => [])
    ∧ (sendRequestBuild hmac b64 stringify cfg env method endpoint post date).auth
      = "HHMAC; key=\"" ++ cfg.apiId ++ "\"; signature=\""
        ++ hmac (b64 cfg.apiSecret)
             (sendRequestBuild hmac b64 stringify cfg env method endpoint post date).canonical
        ++ "\"; date=\"" ++ date ++ "\"" := by
  constructor
  · cases post <;>
      simp [sendRequestBuild, asciiBytes_append, contentTypeStr_eq, List.append_assoc]
  · rfl

/-- Claim C2: whatever the body produced, a completed transaction whose status
code does not start with the digit 2 is delivered as an error, and when the
body had produced a success value the error's message mentions the method,
the endpoint and the status code. -/
theorem C2_status_gate (method endpoint : String) (sc : Nat)
    (r : Except JsError Json) (h : (toString sc).front ≠ '2') :
    ∃ e, doneHandler method endpoint sc r = Except.error e ∧
      (∀ body, r = Except.ok body →
        e.message = method ++ " " ++ endpoint ++ " code " ++ toString sc ∧
        occursIn method e.message ∧ occursIn endpoint e.message ∧
        occursIn (toString sc) e.message) := by
  cases r with
  | error e => exact ⟨e, rfl, fun body hb => Except.noConfusion hb⟩
  | ok body =>
      refine ⟨⟨method ++ " " ++ endpoint ++ " code " ++ toString sc, none⟩, ?_, ?_⟩
      · simp [doneHandler, h]
      · intro b _
        refine ⟨rfl, ?_, ?_, ?_⟩
        · exact ⟨[], (" " ++ endpoint ++ " code " ++ toString sc).data,
            by simp [String.data_append, List.append_assoc]⟩
        · exact ⟨(method ++ " ").data, (" code " ++ toString sc).data,
            by simp [String.data_append, List.append_assoc]⟩
        · exact ⟨(method ++ " " ++ endpoint ++ " code ").data, [],
            by simp [String.data_append, List.append_assoc]⟩

/-- Witness for C2: a 404 response whose body classified as a success is still
delivered as an error naming `GET /articles` and the code 404. -/
theorem C2_status_gate_witness :
    ∃ e, doneHandler "GET" "/articles" 404 (Except.ok (Json.str "ok"))
        = Except.error e ∧
      (∀ body, (Except.ok (Json.str "ok") : Except JsError Json) = Except.ok body →
        e.message = "GET" ++ " " ++ "/articles" ++ " code " ++ toString (404 : Nat) ∧
        occursIn "GET" e.message ∧ occursIn "/articles" e.message ∧
        occursIn (toString (404 : Nat)) e.message) :=
  C2_status_gate "GET" "/articles" 404 (Except.ok (Json.str "ok")) (by decide)

/-- Counterexample to C3 as stated: the body `{"data":null}` has a `data`
field and arrives with status 200, yet the caller receives an error carrying
the raw body text, not a success with the field's value — `if (parsed.data)`
tests truthiness, and `null` is falsy. -/
theorem C3_counterexample :
    doneHandler "GET" "/articles" 200
        (handleEnd "\x7b\"data\":null\x7d"
          (Except.ok (Json.obj [("data", Json.null)])))
      = Except.error ⟨"\x7b\"data\":null\x7d", none⟩ ∧
    ∀ v, doneHandler "GET" "/articles" 200
        (handleEnd "\x7b\"data\":null\x7d"
          (Except.ok (Json.obj [("data", Json.null)])))
      ≠ Except.ok v := by
  exact ⟨rfl, fun v h => Except.noConfusion h⟩

/-- Claim C3 as amended: a 2xx response whose body parses as a JSON object
with a truthy `data` field is delivered as a success carrying exactly that
field's value (falsy values — `null`, `false`, `0`, `""` — are instead
classified through the error branches). -/
theorem C3_data_success (raw : String) (parsed v : Json)
    (method endpoint : String) (sc : Nat) (hraw : raw ≠ "")
    (hd : jsGet parsed "data" = some v) (ht : v.truthy = true)
    (h2 : (toString sc).front = '2') :
    doneHandler method endpoint sc (handleEnd raw (Except.ok parsed))
      = Except.ok v := by
  simp [handleEnd, hraw, classifyBody, hd, ht, doneHandler, h2]

/-- Witness for the amended C3: `{"data":{"id":"123"}}` with status 201 is
delivered as success with the object `{"id":"123"}`. -/
theorem C3_data_success_witness :
    doneHandler "POST" "/articles" 201
        (handleEnd "\x7b\"data\":\x7b\"id\":\"123\"\x7d\x7d"
          (Except.ok (Json.obj [("data", Json.obj [("id", Json.str "123")])])))
      = Except.ok (Json.obj [("id", Json.str "123")]) :=
  C3_data_success _ _ _ _ _ _ (by decide) rfl rfl (by decide)

/-- Claim C4 fails on the code: after the response's `end` event delivers a
success, a late request-level socket `error` invokes the caller's callback a
second time.  The `done` guard is declared inside the `response` handler and
does not protect the request's `error` handler, so the event sequence
`[respEnd, reqError ECONNRESET]` produces two callback invocations — one with
a result and one with an error. -/
theorem C4_double_callback :
    (runTx (fun _ => Except.error "not parsed")
        [Event.respEnd, Event.reqError "ECONNRESET"]).calls
      = [CbCall.success, CbCall.failure] := rfl

/-- Counterexample to C5 as stated: the body `{"errors":[{"code":""}]}` has a
non-empty `errors` array whose first element carries a `code` field, yet the
delivered error carries no structured detail — `parsed.errors[0].code` tests
truthiness and the empty string is falsy, so the plain-error branch runs. -/
theorem C5_counterexample :
    doneHandler "POST" "/articles" 200
        (handleEnd "\x7b\"errors\":[\x7b\"code\":\"\"\x7d]\x7d"
          (Except.ok
            (Json.obj [("errors", Json.arr [Json.obj [("code", Json.str "")]])])))
      = Except.error ⟨"\x7b\"errors\":[\x7b\"code\":\"\"\x7d]\x7d", none⟩ ∧
    ∀ detail, doneHandler "POST" "/articles" 200
        (handleEnd "\x7b\"errors\":[\x7b\"code\":\"\"\x7d]\x7d"
          (Except.ok
            (Json.obj [("errors", Json.arr [Json.obj [("code", Json.str "")]])])))
      ≠ Except.error ⟨"\x7b\"errors\":[\x7b\"code\":\"\"\x7d]\x7d", some detail⟩ := by
  refine ⟨rfl, ?_⟩
  intro detail h
  injection h with h1
  exact Option.noConfusion (congrArg JsError.apiError h1)

/-- Claim C5 as amended: a parsed body without a `data` field whose `errors`
field is a non-empty array whose first element carries a truthy `code` value
is delivered as an error whose message is the raw response text and whose
structured detail is that first element itself (so in particular the detail's
`code` equals the first element's `code`). -/
theorem C5_structured_error (raw : String) (parsed e0 : Json)
    (method endpoint : String) (sc : Nat) (hraw : raw ≠ "")
    (hnd : jsGet parsed "data" = none) (he : errorsHead parsed = some e0)
    (hc : truthyO (jsGet e0 "code") = true) :
    doneHandler method endpoint sc (handleEnd raw (Except.ok parsed))
      = Except.error ⟨raw, some e0⟩ := by
  simp [handleEnd, hraw, classifyBody, hnd, classifyErrors, he, hc, doneHandler]

/-- Witness for the amended C5: `{"errors":[{"code":"X","message":"m"}]}`
yields a structured error whose detail is `{"code":"X","message":"m"}`. -/
theorem C5_structured_error_witness :
    doneHandler "POST" "/articles" 200
        (handleEnd "\x7b\"errors\":[\x7b\"code\":\"X\",\"message\":\"m\"\x7d]\x7d"
          (Except.ok (Json.obj [("errors",
            Json.arr [Json.obj [("code", Json.str "X"), ("message", Json.str "m")]])])))
      = Except.error ⟨"\x7b\"errors\":[\x7b\"code\":\"X\",\"message\":\"m\"\x7d]\x7d",
          some (Json.obj [("code", Json.str "X"), ("message", Json.str "m")])⟩ :=
  C5_structured_error _ _ _ _ _ _ (by decide) rfl rfl rfl

/-- Counterexample to C6 as stated: the POST payload
`{"data":{"alertBody":""}}` has an `alertBody` field nested under `data`, yet
the form-data encoder is invoked on it — `formData.data.alertBody` tests
truthiness and the empty string is falsy, so the alert branch is skipped. -/
theorem C6_counterexample :
    (makeRequestTrace "POST" "/articles"
        (some (Json.obj [("data", Json.obj [("alertBody", Json.str "")])]))
        (fun _ => Except.ok (Post.encoded [] []))).encoderCalls
      = [Json.obj [("data", Json.obj [("alertBody", Json.str "")])]] := rfl

/-- Claim C6 as amended: a POST whose payload has a truthy `alertBody` under
a truthy `data` key never reaches the form-data encoder; it is sent directly,
with content-type `application/json`, content-length equal to the byte length
of the serialized JSON, and the same JSON bytes appended to the canonical
request and written as the request body. -/
theorem C6_alert_bypass (endpoint date : String) (fd : Json)
    (encode : Json → Except JsError Post)
    (hmac : List Nat → List Nat → String) (b64 : String → List Nat)
    (stringify : Json → String) (cfg : Config) (env : Option String)
    (halert : dataAlertBody fd = true) :
    makeRequestTrace "POST" endpoint (some fd) encode
        = ⟨[], [some (Post.json fd)], none⟩ ∧
    sendHeaders stringify (some (Post.json fd))
        = [("content-type", "application/json"),
           ("content-length", toString (byteLength (stringify fd)))] ∧
    (sendRequestBuild hmac b64 stringify cfg env "POST" endpoint
        (some (Post.json fd)) date).body
        = some (utf8Bytes (stringify fd)) ∧
    (sendRequestBuild hmac b64 stringify cfg env "POST" endpoint
        (some (Post.json fd)) date).canonical
        = asciiBytes ("POST" ++ "https://" ++ hostOf cfg ++ endpoint ++ date
            ++ "application/json")
          ++ utf8Bytes (stringify fd) := by
  have htr : fd.truthy = true := dataAlertBody_truthy fd halert
  refine ⟨?_, ?_, ?_, ?_⟩
  · simp [makeRequestTrace, htr, halert]
  · simp [sendHeaders, jsIsAlert, htr, halert]
  · simp [sendRequestBuild, payloadBytes]
  · simp [sendRequestBuild, sendHeaders, jsIsAlert, htr, halert, payloadBytes,
      contentTypeStr]

/-- Witness for the amended C6: the payload `{"data":{"alertBody":"hi"}}`
bypasses the encoder and is signed and sent as raw JSON. -/
theorem C6_alert_bypass_witness :
    makeRequestTrace "POST" "/articles"
        (some (Json.obj [("data", Json.obj [("alertBody", Json.str "hi")])]))
        (fun _ => Except.ok (Post.encoded [] []))
        = ⟨[], [some (Post.json
            (Json.obj [("data", Json.obj [("alertBody", Json.str "hi")])]))], none⟩ ∧
    sendHeaders (fun _ => "\x7b\x7d")
        (some (Post.json (Json.obj [("data", Json.obj [("alertBody", Json.str "hi")])])))
        = [("content-type", "application/json"),
           ("content-length", toString (byteLength ((fun (_ : Json) => "\x7b\x7d")
             (Json.obj [("data", Json.obj [("alertBody", Json.str "hi")])]))))] ∧
    (sendRequestBuild (fun _ _ => "sig") (fun _ => [0]) (fun _ => "\x7b\x7d")
        ⟨"id", "secret", none, none, none⟩ none "POST" "/articles"
        (some (Post.json (Json.obj [("data", Json.obj [("alertBody", Json.str "hi")])])))
        "2024-01-02T03:04:05Z").body
        = some (utf8Bytes ((fun (_ : Json) => "\x7b\x7d")
            (Json.obj [("data", Json.obj [("alertBody", Json.str "hi")])]))) ∧
    (sendRequestBuild (fun _ _ => "sig") (fun _ => [0]) (fun _ => "\x7b\x7d")
        ⟨"id", "secret", none, none, none⟩ none "POST" "/articles"
        (some (Post.json (Json.obj [("data", Json.obj [("alertBody", Json.str "hi")])])))
        "2024-01-02T03:04:05Z").canonical
        = asciiBytes ("POST" ++ "https://"
            ++ hostOf ⟨"id", "secret", none, none, none⟩ ++ "/articles"
            ++ "2024-01-02T03:04:05Z" ++ "application/json")
          ++ utf8Bytes ((fun (_ : Json) => "\x7b\x7d")
            (Json.obj [("data", Json.obj [("alertBody", Json.str "hi")])])) :=
  C6_alert_bypass "/articles" "2024-01-02T03:04:05Z"
    (Json.obj [("data", Json.obj [("alertBody", Json.str "hi")])])
    (fun _ => Except.ok (Post.encoded [] []))
    (fun _ _ => "sig") (fun _ => [0]) (fun _ => "\x7b\x7d")
    ⟨"id", "secret", none, none, none⟩ none rfl

/-- Claim C7: a POST with a truthy non-alert form payload goes to the
form-data encoder; when the encoder reports an error, the caller's callback
receives exactly that error (it passes unchanged through `done`) and no
`sendRequest` call — hence no signing and no network request — is made. -/
theorem C7_encoder_error (endpoint : String) (fd : Json) (e : JsError)
    (encode : Json → Except JsError Post) (sc : Nat)
    (htr : fd.truthy = true) (hna : dataAlertBody fd = false)
    (henc : encode fd = Except.error e) :
    makeRequestTrace "POST" endpoint (some fd) encode = ⟨[fd], [], some e⟩ ∧
    doneHandler "POST" endpoint sc (Except.error e) = Except.error e := by
  constructor
  · simp [makeRequestTrace, htr, hna, henc]
  · rfl

/-- Witness for C7: an encoder failure on `{"title":"t"}` is delivered to the
caller unchanged, with no send. -/
theorem C7_encoder_error_witness :
    makeRequestTrace "POST" "/articles" (some (Json.obj [("title", Json.str "t")]))
        (fun _ => Except.error ⟨"encode failed", none⟩)
        = ⟨[Json.obj [("title", Json.str "t")]], [], some ⟨"encode failed", none⟩⟩ ∧
    doneHandler "POST" "/articles" 200
        (Except.error ⟨"encode failed", none⟩)
        = Except.error ⟨"encode failed", none⟩ :=
  C7_encoder_error "/articles" (Json.obj [("title", Json.str "t")])
    ⟨"encode failed", none⟩ (fun _ => Except.error ⟨"encode failed", none⟩) 200
    rfl rfl rfl

/-- Claim C8: an empty response body never reaches the parser — the `end`
handler delivers `cb(null, res, null)` — and with a 2xx status code the
status gate passes it through, so the caller receives a success with null
data, whatever the parser would have said. -/
theorem C8_empty_body_success (method endpoint : String) (sc : Nat)
    (parseResult : Except String Json) (h2 : (toString sc).front = '2') :
    doneHandler method endpoint sc (handleEnd "" parseResult)
      = Except.ok Json.null := by
  simp [handleEnd, doneHandler, h2]

/-- Witness for C8: an empty body with status 204 yields success with null
data. -/
theorem C8_empty_body_success_witness :
    doneHandler "DELETE" "/articles/1" 204
        (handleEnd "" (Except.error "unexpected end of input"))
      = Except.ok Json.null :=
  C8_empty_body_success "DELETE" "/articles/1" 204
    (Except.error "unexpected end of input") (by decide)

/-- Claim C9: a request-level socket error is reported as a timeout error
exactly when its code is `ECONNRESET` (the reset condition the code
correlates with its timeout-triggered abort); the timeout message embeds the
configured duration in milliseconds, and every other socket error reaches
the callback verbatim. -/
theorem C9_socket_error (cfg : Config) (err : SocketError) :
    ((∃ m, handleReqError cfg err = ReqErrorOutcome.timeoutError m)
        ↔ err.code = "ECONNRESET") ∧
    (∀ t, cfg.timeout = some t → err.code = "ECONNRESET" →
      handleReqError cfg err = ReqErrorOutcome.timeoutError
          ("Apple News API endpoint timeout after " ++ toString t ++ " ms") ∧
      occursIn (toString t ++ " ms")
          ("Apple News API endpoint timeout after " ++ toString t ++ " ms")) ∧
    (err.code ≠ "ECONNRESET" → handleReqError cfg err = ReqErrorOutcome.raw err) := by
  refine ⟨⟨?_, ?_⟩, ?_, ?_⟩
  · rintro ⟨m, hm⟩
    by_cases h : err.code = "ECONNRESET"
    · exact h
    · simp [handleReqError, h] at hm
  · intro h
    refine ⟨"Apple News API endpoint timeout after "
      ++ jsShowTimeout cfg.timeout ++ " ms", ?_⟩
    simp [handleReqError, h]
  · intro t ht hcode
    constructor
    · simp [handleReqError, hcode, ht, jsShowTimeout]
    · exact ⟨("Apple News API endpoint timeout after ").data, [],
        by simp [String.data_append, List.append_assoc]⟩
  · intro h
    simp [handleReqError, h]

/-- Witness for C9: with a 3000 ms timeout configured, `ECONNRESET` is
reported as a timeout naming the duration, and `EPIPE` is passed through
verbatim. -/
theorem C9_socket_error_witness :
    handleReqError ⟨"id", "sec", none, none, some 3000⟩
        ⟨"ECONNRESET", "socket hang up"⟩
      = ReqErrorOutcome.timeoutError
          "Apple News API endpoint timeout after 3000 ms" ∧
    handleReqError ⟨"id", "sec", none, none, some 3000⟩ ⟨"EPIPE", "broken pipe"⟩
      = ReqErrorOutcome.raw ⟨"EPIPE", "broken pipe"⟩ := by
  constructor
  · exact ((C9_socket_error ⟨"id", "sec", none, none, some 3000⟩
      ⟨"ECONNRESET", "socket hang up"⟩).2.1 3000 rfl rfl).1
  · exact (C9_socket_error ⟨"id", "sec", none, none, some 3000⟩
      ⟨"EPIPE", "broken pipe"⟩).2.2 (by decide)

/-- Claim C10: certificate rejection is disabled exactly when
`process.env.NODE_ENV` is the string `test` (an unset variable validates),
and the flag is independent of every field of the supplied configuration. -/
theorem C10_tls_relaxation (hmac : List Nat → List Nat → String)
    (b64 : String → List Nat) (stringify : Json → String)
    (cfg cfg' : Config) (env : Option String) (method endpoint date : String)
    (post : Option Post) :
    ((sendRequestBuild hmac b64 stringify cfg env method endpoint post
        date).opts.rejectUnauthorized = false ↔ env = some "test") ∧
    (sendRequestBuild hmac b64 stringify cfg env method endpoint post
        date).opts.rejectUnauthorized
      = (sendRequestBuild hmac b64 stringify cfg' env method endpoint post
        date).opts.rejectUnauthorized := by
  constructor
  · simp [sendRequestBuild]
  · rfl

end AppleNews
